import Mathlib

/-!
# Verification of the slugkit-py-sdk error-classification, retry and streaming core

This file gives a shallow embedding, in Lean 4, of the retry/streaming core of
the `slugkit` Python SDK:

* the exception taxonomy (`SlugError`), mirroring the `SlugKit*Error` class
  hierarchy of `src/slugkit/errors.py`;
* the two `should_retry_error` functions: the one in `errors.py` (which
  consults the rate-limit reason-code table) and the one in `base.py`
  (which treats every rate-limit error as retryable).  Note that `base.py`
  first imports names from `errors.py` and then redefines
  `should_retry_error`, `calculate_backoff_delay` and `retry_with_backoff`
  at module level, so the definitions actually bound in `base.py` — and
  hence the ones used by the `@retry_with_backoff` decorators in
  `sync_client.py` / `async_client.py` — are `base.py`'s own;
* `calculate_backoff_delay` (the `base.py` variant, with the `retry_after`
  parameter) over `ℚ`; the pseudo-random jitter factor drawn from
  `random.uniform(0.75, 1.25)` is made an explicit argument;
* the retry loop of `retry_with_backoff`'s `sync_wrapper` (the `async_wrapper`
  has literally identical control flow, only the sleeping primitive differs),
  instrumented to record the number of invocations and the slept delays;
* the chunked streaming generators `SyncSlugGenerator.stream` and
  `AsyncSlugGenerator.stream`, with the HTTP transport abstracted as a
  function from requests to line lists (or a raised exception), and the
  consumer modelled by a budget of `next()` calls so that early termination
  by the consumer is expressible;
* `handle_http_error` / `extract_error_info` of `errors.py`, with the JSON
  body parser abstracted as an oracle argument.

Python `int` values are modelled as `Int`, Python `float` delays as `ℚ`
(the claims under study only involve arithmetic that is exact in binary
floating point, and the single inequality claim is preserved by the
monotone rounding of IEEE754, so `ℚ` is a faithful model here).
-/

/-- The extra payload carried by `SlugKitRateLimitError`
(`errors.py`, class `SlugKitRateLimitError.__init__`). -/
structure RateLimitInfo where
  retry_after : Option Int
  rate_limit_reason : Option String
  rpm_remaining : Option Int
  daily_remaining : Option Int
  monthly_remaining : Option Int
  lifetime_remaining : Option Int
deriving Repr, DecidableEq

/-- The exception taxonomy seen by `should_retry_error`: the `SlugKitError`
subclasses of `errors.py` together with the raw `httpx` transport exceptions
that the retry logic also inspects (`httpx.ConnectError`,
`httpx.TimeoutException`, `httpx.HTTPStatusError`). -/
inductive SlugError where
  | connectionError (msg : String)
  | authenticationError (msg : String)
  | clientError (msg : String)
  | serverError (msg : String)
  | validationError (msg : String)
  | timeoutError (msg : String)
  | quotaError (msg : String)
  | configurationError (msg : String)
  | rateLimitError (msg : String) (info : RateLimitInfo)
  | httpxConnectError (msg : String)
  | httpxTimeoutException (msg : String)
  | httpxHTTPStatusError (status_code : Int)
  | otherException (msg : String)
deriving Repr, DecidableEq

namespace SlugKit

/-- Model of `should_retry_error` as defined in `errors.py` (lines 564-619): rate-limit
errors are vetted against the reason-code table.  Python truthiness makes an
empty-string `rate_limit_reason` take the no-reason branch
(`if hasattr(error, 'rate_limit_reason') and error.rate_limit_reason`). -/
def errors_should_retry_error : SlugError → Bool
  | .httpxConnectError _ => true
  | .httpxTimeoutException _ => true
  | .connectionError _ => true
  | .httpxHTTPStatusError status => decide (500 ≤ status ∧ status < 600)
  | .rateLimitError _ info =>
    match info.rate_limit_reason with
    | none => true
    | some reason =>
      if reason = "" then
        true
      else if reason = "not-available" ∨ reason = "request-size-exceeded" then
        false
      else if reason = "rate-limit-exceeded" ∨ reason = "daily-limit-exceeded" then
        true
      else if reason = "monthly-limit-exceeded" ∨ reason = "lifetime-limit-exceeded" then
        false
      else if reason = "redis-error" then
        false
      else
        false
  | _ => false

/-- Model of `should_retry_error` as defined in `base.py` (lines 192-218): every
`SlugKitRateLimitError` is retryable, no reason-code table.  This is the
definition bound in `base.py`'s module namespace, hence the one consulted by
`base.py`'s `retry_with_backoff` (the decorator the SDK clients import). -/
def base_should_retry_error : SlugError → Bool
  | .httpxConnectError _ => true
  | .httpxTimeoutException _ => true
  | .connectionError _ => true
  | .httpxHTTPStatusError status => decide (500 ≤ status ∧ status < 600)
  | .rateLimitError _ _ => true
  | _ => false

/-- Model of `calculate_backoff_delay` as defined in `base.py` (lines 222-254).
`jitter` stands for the value drawn from `random.uniform(0.75, 1.25)`.
`attempt` is 1-based; `2 ** (attempt - 1)` uses truncated subtraction just
as the Python loop only ever passes `attempt ≥ 1`. -/
def calculate_backoff_delay (attempt : Nat) (base_delay max_delay : ℚ)
    (retry_after : Option Int) (jitter : ℚ) : ℚ :=
  match retry_after with
  | some ra =>
    if 0 < ra then (ra : ℚ)
    else min (base_delay * 2 ^ (attempt - 1)) max_delay * jitter
  | none => min (base_delay * 2 ^ (attempt - 1)) max_delay * jitter

/-- Model of `calculate_backoff_delay` as defined in `errors.py` (lines 622-633):
no `retry_after` parameter, jitter is always applied. -/
def errors_calculate_backoff_delay (attempt : Nat) (base_delay max_delay : ℚ)
    (jitter : ℚ) : ℚ :=
  min (base_delay * 2 ^ (attempt - 1)) max_delay * jitter

/-- The `retry_after` extraction performed inside `base.py`'s retry wrappers:
`if isinstance(e, SlugKitRateLimitError) and hasattr(e, 'retry_after')`
(the attribute always exists on that class). -/
def retryAfterOf : SlugError → Option Int
  | .rateLimitError _ info => info.retry_after
  | _ => none

/-- Observable trace of one run of `retry_with_backoff`'s wrapper:
the outcome (`Except.error none` models Python's `raise None` when
`max_attempts = 0` lets the loop body never run), how many times the wrapped
operation was invoked, and the delays slept between attempts. -/
structure RetryTrace (α : Type) where
  result : Except (Option SlugError) α
  invocations : Nat
  delays : List ℚ
deriving Repr

/-- The loop body of `base.py`'s `retry_with_backoff.sync_wrapper`
(lines 284-315; `async_wrapper` is control-flow identical).  `attempt` is the
1-based loop counter, `fuel` the number of remaining loop iterations
(initially `max_attempts`), so `fuel = 1` exactly when
`attempt == max_attempts`.  `op i` is the outcome of the i-th invocation of
the wrapped operation; `jitter i` the random factor drawn on attempt `i`. -/
def retryGo {α : Type} (policy : SlugError → Bool) (base_delay max_delay : ℚ)
    (jitter : Nat → ℚ) (op : Nat → Except SlugError α) :
    Nat → Nat → Nat → List ℚ → Option SlugError → RetryTrace α
  | _attempt, 0, calls, delays, last => ⟨.error last, calls, delays.reverse⟩
  | attempt, fuel + 1, calls, delays, _last =>
    match op attempt with
    | .ok v => ⟨.ok v, calls + 1, delays.reverse⟩
    | .error e =>
      if !policy e || fuel == 0 then
        ⟨.error (some e), calls + 1, delays.reverse⟩
      else
        retryGo policy base_delay max_delay jitter op (attempt + 1) fuel (calls + 1)
          (calculate_backoff_delay attempt base_delay max_delay (retryAfterOf e)
            (jitter attempt) :: delays)
          (some e)

/-- One full run of `base.py`'s `retry_with_backoff(max_attempts, base_delay,
max_delay)` around an operation, with the default policy argument made
explicit (the SDK always uses the default, i.e. `base.py`'s
`should_retry_error`). -/
def retry_with_backoff_sync {α : Type} (policy : SlugError → Bool)
    (base_delay max_delay : ℚ) (jitter : Nat → ℚ)
    (op : Nat → Except SlugError α) (max_attempts : Nat) : RetryTrace α :=
  retryGo policy base_delay max_delay jitter op 1 max_attempts 0 [] none

end SlugKit

namespace SlugKit

/-! ## The streaming generators -/

/-- Python `str.strip()` (no arguments): remove leading and trailing
whitespace.  Implemented over the character list so that it reduces inside
the kernel (`String.trim` is byte-position based and does not). -/
def pyStrip (s : String) : String :=
  String.mk (((s.data.dropWhile Char.isWhitespace).reverse.dropWhile
    Char.isWhitespace).reverse)

/-- Python `str.startswith(p)`, over character lists for kernel
reducibility. -/
def strStartsWith (s p : String) : Bool :=
  decide (s.data.take p.data.length = p.data)

/-- The JSON request body built by `GeneratorBase._get_request` (`base.py`,
lines 662-668): always a `count`; a `sequence` key only when `self._dry_run`
holds and a sequence was passed; a `series` key only when a series slug is
configured. -/
structure Req where
  count : Int
  sequence : Option Int
  series : Option String
deriving Repr, DecidableEq

/-- Model of `GeneratorBase._get_request(count, sequence)`. -/
def get_request (dry_run : Bool) (series_slug : Option String)
    (count : Int) (sequence : Option Int) : Req :=
  { count := count
    sequence := if dry_run then sequence else none
    series := series_slug }

/-- An exception raised by the transport while a chunk request is in flight:
either an `httpx.HTTPStatusError` carrying the completed response, or a
`KeyboardInterrupt` delivered to the generator. -/
inductive TransportExc where
  | http (status_code : Int) (reason_phrase : String) (text : String)
      (headers : List (String × String))
  | keyboard
deriving Repr, DecidableEq

/-- How a run of the generator body ends, as observable by the consumer:
`finished` — the `while` loop broke and the generator returned its count;
`suspended` — the consumer stopped calling `next()`, freezing the generator
at its last `yield`; `exc` — an exception escaped the loop (to be handled by
the generator's `try/except`); `fuelExhausted` — artefact of the fuel-indexed
model, never reached in any theorem below. -/
inductive StreamOutcome where
  | finished
  | suspended
  | exc (e : TransportExc)
  | fuelExhausted
deriving Repr, DecidableEq

/-- Observable trace of the generator body: the values yielded (in order),
the chunk requests issued (in order), how the run ended and the final value
of the Python `count` variable. -/
structure StreamResult where
  yielded : List String
  requests : List Req
  outcome : StreamOutcome
  count : Int
deriving Repr, DecidableEq

/-- Test `limit is not None and count >= limit` of the inner loops. -/
def limitHit : Option Int → Int → Bool
  | some l, c => decide (l ≤ c)
  | none, _ => false

/-- Result of consuming one chunk's response lines in
`SyncSlugGenerator.stream`'s inner `for` loop. -/
structure ChunkOut where
  yielded : List String
  count : Int
  budget : Nat
  halted : Bool
deriving Repr, DecidableEq

/-- The inner `for val in response.iter_lines()` loop of
`SyncSlugGenerator.stream` (`sync_client.py`, lines 77-83).  `budget` is the
number of `next()` calls the consumer will still make: delivering a line
costs one; if it drops to zero the generator is left suspended at that
`yield`, so the trailing `count += 1` and everything after it never run
(`halted = true`).  The consumer of the claims never uses `gen.send`, so the
`stop is not None` break is never taken and is not modelled.  Yielded values
are `val.strip()`, modelled by `pyStrip`. -/
def runChunk : Nat → Option Int → Int → List String → ChunkOut
  | 0, _, count, _ => ⟨[], count, 0, true⟩
  | b + 1, _, count, [] => ⟨[], count, b + 1, false⟩
  | b + 1, limit, count, line :: rest =>
    if b = 0 then
      ⟨[pyStrip line], count, 0, true⟩
    else
      let count' := count + 1
      if limitHit limit count' then
        ⟨[pyStrip line], count', b, false⟩
      else
        let r := runChunk b limit count' rest
        ⟨pyStrip line :: r.yielded, r.count, r.budget, r.halted⟩

/-- The `while True` loop of `SyncSlugGenerator.stream` (`sync_client.py`,
lines 62-84).  Mirrors the source line by line: `batch_size` is clamped
in place by `min(batch_size, limit - count)` (and the clamped value is what
the recursion carries, as in the Python code, which overwrites
`batch_size`); a non-positive batch size breaks the loop; otherwise one
request built by `_get_request(batch_size, sequence)` is issued, the
response lines are consumed, and `sequence += batch_size` advances the
cursor by the requested size.  `fuel` bounds the number of loop iterations
(the Python loop can genuinely diverge, e.g. against a server that keeps
returning empty bodies, so the model is fuel-indexed). -/
def streamLoop (transport : Req → Except TransportExc (List String))
    (dry_run : Bool) (series_slug : Option String) :
    Nat → Nat → Option Int → Int → Int → Int → StreamResult
  | 0, _, _, _, count, _ => ⟨[], [], .fuelExhausted, count⟩
  | fuel + 1, budget, limit, batch_size, count, sequence =>
    let batch_size' := match limit with
      | some l => min batch_size (l - count)
      | none => batch_size
    if batch_size' ≤ 0 then ⟨[], [], .finished, count⟩
    else
      let req := get_request dry_run series_slug batch_size' (some sequence)
      match transport req with
      | .error e => ⟨[], [req], .exc e, count⟩
      | .ok lines =>
        let ch := runChunk budget limit count lines
        if ch.halted then ⟨ch.yielded, [req], .suspended, ch.count⟩
        else
          let rest := streamLoop transport dry_run series_slug fuel ch.budget limit
            batch_size' ch.count (sequence + batch_size')
          ⟨ch.yielded ++ rest.yielded, req :: rest.requests, rest.outcome, rest.count⟩

/-- A full run of the body of `SyncSlugGenerator.stream`, starting from
`count = 0` and the configured limit, batch size and sequence.  A consumer
that never calls `next()` at all (`budget = 0`) leaves the generator
unstarted: nothing runs, no request is issued. -/
def streamRun (transport : Req → Except TransportExc (List String))
    (dry_run : Bool) (series_slug : Option String) (fuel budget : Nat)
    (limit : Option Int) (batch_size sequence : Int) : StreamResult :=
  if budget = 0 then ⟨[], [], .suspended, 0⟩
  else streamLoop transport dry_run series_slug fuel budget limit batch_size 0 sequence

/-! The async generator `AsyncSlugGenerator.stream` (`async_client.py`,
lines 47-87) has slightly different control flow: the loop head first breaks
when `count >= limit`, the clamped `current_batch_size` is a fresh local
(the configured `batch_size` is not overwritten), and reaching the limit
inside the chunk executes `return` directly instead of breaking out of two
loops.  The claims about it do not involve transport failures or
suspension, so its transport is total here. -/

/-- Result of the inner `async for` loop of `AsyncSlugGenerator.stream`:
`returned` records that the `return` statement ran (limit reached). -/
structure AChunkOut where
  yielded : List String
  count : Int
  budget : Nat
  halted : Bool
  returned : Bool
deriving Repr, DecidableEq

/-- The inner `async for val in async_lines` loop of
`AsyncSlugGenerator.stream`. -/
def runAChunk : Nat → Option Int → Int → List String → AChunkOut
  | 0, _, count, _ => ⟨[], count, 0, true, false⟩
  | b + 1, _, count, [] => ⟨[], count, b + 1, false, false⟩
  | b + 1, limit, count, line :: rest =>
    if b = 0 then
      ⟨[pyStrip line], count, 0, true, false⟩
    else
      let count' := count + 1
      if limitHit limit count' then
        ⟨[pyStrip line], count', b, false, true⟩
      else
        let r := runAChunk b limit count' rest
        ⟨pyStrip line :: r.yielded, r.count, r.budget, r.halted, r.returned⟩

/-- The `while True` loop of `AsyncSlugGenerator.stream`. -/
def asyncStreamLoop (transport : Req → List String)
    (dry_run : Bool) (series_slug : Option String) :
    Nat → Nat → Option Int → Int → Int → Int → StreamResult
  | 0, _, _, _, count, _ => ⟨[], [], .fuelExhausted, count⟩
  | fuel + 1, budget, limit, batch_size, count, sequence =>
    if limitHit limit count then ⟨[], [], .finished, count⟩
    else
      let current := match limit with
        | some l => min batch_size (l - count)
        | none => batch_size
      if current ≤ 0 then ⟨[], [], .finished, count⟩
      else
        let req := get_request dry_run series_slug current (some sequence)
        let ch := runAChunk budget limit count (transport req)
        if ch.halted then ⟨ch.yielded, [req], .suspended, ch.count⟩
        else if ch.returned then ⟨ch.yielded, [req], .finished, ch.count⟩
        else
          let rest := asyncStreamLoop transport dry_run series_slug fuel ch.budget limit
            batch_size ch.count (sequence + current)
          ⟨ch.yielded ++ rest.yielded, req :: rest.requests, rest.outcome, rest.count⟩

/-- A full run of the body of `AsyncSlugGenerator.stream`. -/
def asyncStreamRun (transport : Req → List String)
    (dry_run : Bool) (series_slug : Option String) (fuel budget : Nat)
    (limit : Option Int) (batch_size sequence : Int) : StreamResult :=
  if budget = 0 then ⟨[], [], .suspended, 0⟩
  else asyncStreamLoop transport dry_run series_slug fuel budget limit batch_size 0 sequence

end SlugKit

namespace SlugKit

/-! ## HTTP error classification (`errors.py`, `handle_http_error`) -/

/-- Case-sensitive header lookup (`httpx.Headers` is case-insensitive; the
claims only use canonically-cased keys, for which the two agree). -/
def headerGet (headers : List (String × String)) (key : String) : Option String :=
  (headers.find? (fun p => p.1 = key)).map (fun p => p.2)

/-- Digits-only accumulation for Python `int(...)`. -/
def digitsToNat (l : List Char) : Option Nat :=
  if l ≠ [] ∧ l.all Char.isDigit then
    some (l.foldl (fun a c => a * 10 + (c.toNat - 48)) 0)
  else none

/-- Python `int(s)` on a header string: surrounding whitespace stripped, an
optional sign, then decimal digits; anything else raises `ValueError`
(modelled as `none`).  (Python also accepts digit-group underscores; no
header in scope uses them.) -/
def pyParseInt (s : String) : Option Int :=
  match (pyStrip s).data with
  | '-' :: rest => (digitsToNat rest).map (fun n => -(n : Int))
  | '+' :: rest => (digitsToNat rest).map (fun n => (n : Int))
  | l => (digitsToNat l).map (fun n => (n : Int))

/-- Model of `parse_int_header` inside `handle_http_error`: `None` stays `None`,
non-numeric strings become `None` instead of raising. -/
def parse_int_header : Option String → Option Int
  | none => none
  | some v => pyParseInt v

/-- The rate-limit header extraction performed for 429 responses
(`errors.py`, lines 519-541). -/
def extract_rate_limit_info (headers : List (String × String)) : RateLimitInfo :=
  { retry_after := parse_int_header (headerGet headers "X-Slug-Retry-After")
    rate_limit_reason := headerGet headers "X-Slug-Rate-Limit-Reason"
    rpm_remaining := parse_int_header (headerGet headers "X-Slug-Rpm-Remaining")
    daily_remaining := parse_int_header (headerGet headers "X-Slug-Daily-Remaining")
    monthly_remaining := parse_int_header (headerGet headers "X-Slug-Monthly-Remaining")
    lifetime_remaining := parse_int_header (headerGet headers "X-Slug-Lifetime-Remaining") }

/-- Abstraction of `json.loads` on an error body: `none` when the text is not
valid JSON (the `except` branch), otherwise the parsed object's `message`
field (`none`: key absent; `some none`: key present with `null` value) and
`code` field.  The embedding is parameterised over this oracle; every
concrete theorem instantiates it. -/
structure JsonError where
  message : Option (Option String)
  code : Option Int

/-- Model of `extract_error_info(response_text)` (`errors.py`, lines 434-462): empty
text yields the sentinel `f"HTTP {response_text}"` (i.e. `"HTTP "`); text
whose stripped form starts with a brace is JSON-parsed, with
`error_data.get("message", response_text)` defaulting to the raw text;
anything else is returned verbatim.  The first component is the error
message (`none` models a JSON `"message": null`), the second the optional
`code` detail. -/
def extract_error_info (jsonParse : String → Option JsonError)
    (response_text : String) : Option String × Option Int :=
  if response_text = "" then (some ("HTTP " ++ response_text), none)
  else if strStartsWith (pyStrip response_text) "\x7b" then
    match jsonParse response_text with
    | some obj =>
      (match obj.message with
       | none => some response_text
       | some m => m,
       obj.code)
    | none => (some response_text, none)
  else (some response_text, none)

/-- The message fix-up in `handle_http_error` (lines 508-510):
`if not error_message or error_message.startswith("HTTP "):` replace it with
`f"HTTP {status_code}: {reason_phrase}"`. -/
def final_error_message (status_code : Int) (reason_phrase : String)
    (m : Option String) : String :=
  match m with
  | none => "HTTP " ++ toString status_code ++ ": " ++ reason_phrase
  | some s =>
    if s = "" || strStartsWith s "HTTP " then
      "HTTP " ++ toString status_code ++ ": " ++ reason_phrase
    else s

/-- A completed, non-success HTTP exchange as seen through
`httpx.HTTPStatusError`: status code, reason phrase, body text, headers. -/
structure HttpResponse where
  status_code : Int
  reason_phrase : String
  text : String
  headers : List (String × String)
deriving Repr, DecidableEq

/-- Model of `handle_http_error(error, ...)` (`errors.py`, lines 465-561), restricted
to its observable output: which `SlugKitError` subclass is constructed and
with what message (and, for 429, which rate-limit payload).  The
`ErrorContext` bookkeeping is pure observability and is not modelled. -/
def handle_http_error (jsonParse : String → Option JsonError)
    (resp : HttpResponse) : SlugError :=
  let response_text := pyStrip resp.text
  let extracted := extract_error_info jsonParse response_text
  let error_message := final_error_message resp.status_code resp.reason_phrase extracted.1
  if resp.status_code = 401 then .authenticationError error_message
  else if resp.status_code = 403 then .authenticationError error_message
  else if resp.status_code = 404 then .clientError error_message
  else if resp.status_code = 400 then .validationError error_message
  else if resp.status_code = 429 then
    .rateLimitError error_message (extract_rate_limit_info resp.headers)
  else if 500 ≤ resp.status_code then .serverError error_message
  else .clientError error_message

/-- The nine-way kind of a classified error (which exception class it is). -/
inductive ErrorKind where
  | connection
  | authentication
  | clientError
  | validation
  | serverError
  | rateLimit
  | timeoutKind
  | quota
  | configuration
  | transportRaw
deriving Repr, DecidableEq

/-- The kind (class) of a `SlugError`. -/
def kindOf : SlugError → ErrorKind
  | .connectionError _ => .connection
  | .authenticationError _ => .authentication
  | .clientError _ => .clientError
  | .serverError _ => .serverError
  | .validationError _ => .validation
  | .timeoutError _ => .timeoutKind
  | .quotaError _ => .quota
  | .configurationError _ => .configuration
  | .rateLimitError _ _ => .rateLimit
  | .httpxConnectError _ => .transportRaw
  | .httpxTimeoutException _ => .transportRaw
  | .httpxHTTPStatusError _ => .transportRaw
  | .otherException _ => .transportRaw

/-- The message carried by a `SlugError`. -/
def messageOf : SlugError → String
  | .connectionError m => m
  | .authenticationError m => m
  | .clientError m => m
  | .serverError m => m
  | .validationError m => m
  | .timeoutError m => m
  | .quotaError m => m
  | .configurationError m => m
  | .rateLimitError m _ => m
  | .httpxConnectError m => m
  | .httpxTimeoutException m => m
  | .httpxHTTPStatusError _ => ""
  | .otherException m => m

/-! ## The `try/except` wrapper of `SyncSlugGenerator.stream` -/

/-- The generator's observable, final account of a streaming session: the
yielded values and issued requests from the loop trace and, when the
generator body ran to an end (rather than being left suspended by the
consumer), its outcome — either the returned `count` or the exception it
raised.  Mirrors `sync_client.py`, lines 60-91: an `httpx.HTTPStatusError`
is re-raised as `handle_http_error(e, "stream_slugs", path)`; a
`KeyboardInterrupt` is swallowed by `except KeyboardInterrupt: ...`, after
which execution falls through to `return count`. -/
def sync_stream_session (jsonParse : String → Option JsonError)
    (transport : Req → Except TransportExc (List String))
    (dry_run : Bool) (series_slug : Option String) (fuel budget : Nat)
    (limit : Option Int) (batch_size sequence : Int) :
    List String × List Req × Option (Except SlugError Int) :=
  let r := streamRun transport dry_run series_slug fuel budget limit batch_size sequence
  (r.yielded, r.requests,
    match r.outcome with
    | .finished => some (.ok r.count)
    | .suspended => none
    | .fuelExhausted => none
    | .exc (.http status reason text headers) =>
      some (.error (handle_http_error jsonParse ⟨status, reason, text, headers⟩))
    | .exc .keyboard => some (.ok r.count))

end SlugKit

namespace SlugKit

/-! ## Concrete transports for the streaming scenarios -/

/-- The fake dry-run transport of the `limit=5, batch_size=2` scenario: a
request of count `c` at sequence `s` is answered with the `c` lines
`"slice-{s}-{i}"` for `i` in `0..c`. -/
def sliceTransport : Req → Except TransportExc (List String) := fun req =>
  .ok ((List.range req.count.toNat).map
    (fun i => "slice-" ++ toString (req.sequence.getD 0) ++ "-" ++ toString i))

/-- A misbehaving transport that always returns one line more than was
requested, used to show that the cursor advances by the requested batch
size and not by the number of lines actually consumed. -/
def overCountTransport : Req → Except TransportExc (List String) := fun req =>
  .ok ((List.range (req.count.toNat + 1)).map
    (fun i => "over-" ++ toString (req.sequence.getD 0) ++ "-" ++ toString i))

/-- A transport answering every request with exactly the requested number of
lines, used for the unbounded-stream scenario. -/
def unboundedTransport : Req → Except TransportExc (List String) := fun req =>
  .ok ((List.range req.count.toNat).map (fun i => "item-" ++ toString i))

/-- A transport that serves the first chunk normally and then delivers a
`KeyboardInterrupt` while the second chunk request is in flight. -/
def kbTransport : Req → Except TransportExc (List String) := fun req =>
  if req.sequence.getD 0 = 0 then
    .ok ((List.range req.count.toNat).map (fun i => "kb-" ++ toString i))
  else .error .keyboard

end SlugKit

namespace SlugKit

/-! ## Claims -/

/-- Claim C1 (corrected), counterexample to the claim as stated: the
`should_retry_error` consulted by the retry orchestrator (the one defined in
`base.py`) answers `true` for a 429 error whose `rate_limit_reason` is
`monthly-limit-exceeded`, where the claimed reason-code table requires
`false`; consequently an operation that keeps failing with that error is
invoked `max_attempts` (here 3) times instead of once. -/
theorem claim_c1_counterexample :
    base_should_retry_error (SlugError.rateLimitError "Monthly limit exceeded"
      ⟨none, some "monthly-limit-exceeded", none, none, none, none⟩) = true
    ∧ (retry_with_backoff_sync (α := Nat) base_should_retry_error 1 60 (fun _ => 1)
        (fun _ => Except.error (SlugError.rateLimitError "Monthly limit exceeded"
          ⟨none, some "monthly-limit-exceeded", none, none, none, none⟩)) 3).invocations
      = 3 := by
  exact ⟨rfl, rfl⟩

/-- Claim C1 (amended): the reason-code table is implemented by
`should_retry_error` in `errors.py` and behaves exactly as claimed for every
rate-limit error — absent reason (or, by Python truthiness, an empty-string
reason) is retryable, `rate-limit-exceeded` and `daily-limit-exceeded` are
retryable, and every other reason (the six listed ones and any unknown
string) is not, regardless of `retry_after`; the `should_retry_error` of
`base.py`, however — the one the retry orchestrator actually consults —
returns `true` for every rate-limit error regardless of reason. -/
theorem claim_c1_rate_limit_reason_table :
    ∀ (msg : String) (info : RateLimitInfo),
    (errors_should_retry_error (SlugError.rateLimitError msg info) =
      match info.rate_limit_reason with
      | none => true
      | some reason =>
        decide (reason = "" ∨ reason = "rate-limit-exceeded" ∨
          reason = "daily-limit-exceeded"))
    ∧ base_should_retry_error (SlugError.rateLimitError msg info) = true := by
  intro msg info
  refine ⟨?_, rfl⟩
  cases h : info.rate_limit_reason with
  | none => simp [errors_should_retry_error, h]
  | some reason =>
    simp only [errors_should_retry_error, h]
    by_cases h1 : reason = ""
    · simp [h1]
    · by_cases h2 : reason = "not-available" ∨ reason = "request-size-exceeded"
      · rcases h2 with h2 | h2 <;> subst h2 <;> decide
      · by_cases h3 : reason = "rate-limit-exceeded" ∨ reason = "daily-limit-exceeded"
        · rcases h3 with h3 | h3 <;> subst h3 <;> decide
        · push_neg at h2 h3
          by_cases h4 : reason = "monthly-limit-exceeded" ∨ reason = "lifetime-limit-exceeded"
          · rcases h4 with h4 | h4 <;> subst h4 <;> decide
          · push_neg at h4
            by_cases h5 : reason = "redis-error"
            · subst h5; decide
            · simp [h1, h2.1, h2.2, h3.1, h3.2, h4.1, h4.2, h5]

/-- Claim C2: the backoff-delay computation used between retry attempts
(`calculate_backoff_delay` of `base.py`, invoked by the retry wrapper with
the `retry_after` extracted from the raised error) returns a positive
server-supplied `retry_after` verbatim, with no jitter applied; only when
`retry_after` is absent or non-positive does it fall back to jittered
exponential backoff.  The last conjunct checks the end-to-end behaviour:
a first attempt failing with a rate-limit error carrying a positive
`retry_after` makes the orchestrator sleep exactly `retry_after` seconds,
for every value of the jitter stream. -/
theorem claim_c2_retry_after_verbatim :
    (∀ (attempt : Nat) (bd md : ℚ) (ra : Int) (j : ℚ), 0 < ra →
      calculate_backoff_delay attempt bd md (some ra) j = (ra : ℚ))
    ∧ (∀ (attempt : Nat) (bd md : ℚ) (j : ℚ),
      calculate_backoff_delay attempt bd md none j =
        min (bd * 2 ^ (attempt - 1)) md * j)
    ∧ (∀ (attempt : Nat) (bd md : ℚ) (ra : Int) (j : ℚ), ra ≤ 0 →
      calculate_backoff_delay attempt bd md (some ra) j =
        min (bd * 2 ^ (attempt - 1)) md * j)
    ∧ (∀ (bd md : ℚ) (jitter : Nat → ℚ) (msg : String) (info : RateLimitInfo)
        (v : Nat) (ra : Int), info.retry_after = some ra → 0 < ra →
      (retry_with_backoff_sync base_should_retry_error bd md jitter
        (fun i => if i = 1 then Except.error (SlugError.rateLimitError msg info)
                  else Except.ok v) 3).delays = [(ra : ℚ)]) := by
  refine ⟨?_, ?_, ?_, ?_⟩
  · intro attempt bd md ra j h
    simp [calculate_backoff_delay, h]
  · intro attempt bd md j
    simp [calculate_backoff_delay]
  · intro attempt bd md ra j h
    simp [calculate_backoff_delay, not_lt.mpr h]
  · intro bd md jitter msg info v ra hra hpos
    simp [retry_with_backoff_sync, retryGo, base_should_retry_error,
      retryAfterOf, hra, calculate_backoff_delay, hpos]

/-- Claim C2 witness: concrete instances of the theorem's conjuncts. -/
theorem claim_c2_witness :
    calculate_backoff_delay 2 1 60 (some 7) (9/8) = 7
    ∧ (retry_with_backoff_sync base_should_retry_error 1 60 (fun _ => 1)
        (fun i => if i = 1 then Except.error (SlugError.rateLimitError "rate limited"
          ⟨some 7, some "rate-limit-exceeded", none, none, none, none⟩)
          else Except.ok 42) 3).delays = [7] := by
  refine ⟨?_, ?_⟩
  · exact claim_c2_retry_after_verbatim.1 2 1 60 7 (9/8) (by norm_num)
  · exact claim_c2_retry_after_verbatim.2.2.2 1 60 (fun _ => 1) "rate limited"
      ⟨some 7, some "rate-limit-exceeded", none, none, none, none⟩ 42 7 rfl (by norm_num)

/-- Claim C9: for every attempt in 1..5 with `base_delay = 1.0`,
`max_delay = 60.0` and no server-supplied `retry_after`, the computed delay
lies within `[0.75 * min(2^(attempt-1), 60), 1.25 * min(2^(attempt-1), 60)]`
for every jitter factor in `[0.75, 1.25]`. -/
theorem claim_c9_backoff_delay_bounds :
    ∀ (attempt : Nat), 1 ≤ attempt → attempt ≤ 5 →
    ∀ (j : ℚ), 3/4 ≤ j → j ≤ 5/4 →
    3/4 * min ((2 : ℚ) ^ (attempt - 1)) 60 ≤ calculate_backoff_delay attempt 1 60 none j
    ∧ calculate_backoff_delay attempt 1 60 none j
      ≤ 5/4 * min ((2 : ℚ) ^ (attempt - 1)) 60 := by
  intro a _ _ j hj1 hj2
  have hm : (0 : ℚ) ≤ min ((2 : ℚ) ^ (a - 1)) 60 := le_min (by positivity) (by norm_num)
  simp only [calculate_backoff_delay, one_mul]
  constructor
  · nlinarith
  · nlinarith

/-- Claim C9 witness: attempt 3, jitter 1. -/
theorem claim_c9_witness :
    3/4 * min ((2 : ℚ) ^ (3 - 1)) 60 ≤ calculate_backoff_delay 3 1 60 none 1
    ∧ calculate_backoff_delay 3 1 60 none 1 ≤ 5/4 * min ((2 : ℚ) ^ (3 - 1)) 60 :=
  claim_c9_backoff_delay_bounds 3 (by norm_num) (by norm_num) 1 (by norm_num) (by norm_num)

end SlugKit

namespace SlugKit

/-- Helper: if every invocation of the operation fails, the retry loop ends
by re-raising the error of its last invocation, having called the operation
between 1 and `fuel` times (`err i` is the error raised by the i-th
invocation, counting attempts from `attempt`). -/
theorem retryGo_all_fail {α : Type} (policy : SlugError → Bool) (bd md : ℚ)
    (jitter : Nat → ℚ) (err : Nat → SlugError) :
    ∀ (fuel attempt calls : Nat) (delays : List ℚ) (last : Option SlugError),
    1 ≤ fuel →
    ∃ k, 1 ≤ k ∧ k ≤ fuel ∧
      ∃ ds, retryGo (α := α) policy bd md jitter (fun i => Except.error (err i))
        attempt fuel calls delays last = ⟨Except.error (some (err (attempt + k - 1))), calls + k, ds⟩ := by
  intro fuel
  induction fuel with
  | zero => intro attempt calls delays last h; omega
  | succ f ih =>
    intro attempt calls delays last _
    by_cases hstop : (!policy (err attempt) || (f == 0)) = true
    · refine ⟨1, le_refl 1, by omega, delays.reverse, ?_⟩
      simp only [retryGo, hstop, if_true]
      simp
    · have hf : 1 ≤ f := by
        rcases Nat.eq_zero_or_pos f with h0 | h0
        · subst h0; simp at hstop
        · omega
      obtain ⟨k, hk1, hkf, ds, heq⟩ :=
        ih (attempt + 1) (calls + 1)
          (calculate_backoff_delay attempt bd md (retryAfterOf (err attempt))
            (jitter attempt) :: delays) (some (err attempt)) hf
      rw [show attempt + 1 + k - 1 = attempt + (k + 1) - 1 from by omega,
          show calls + 1 + k = calls + (k + 1) from by omega] at heq
      refine ⟨k + 1, by omega, by omega, ds, ?_⟩
      simp only [retryGo, hstop, if_false, Bool.false_eq_true]
      exact heq

/-- Claim C4: when the retry orchestrator gives up, it re-raises the most
recent error instance itself, unchanged: for an operation whose i-th
invocation raises `err i`, the final outcome is exactly `err k` where `k`
is the number of invocations actually performed; and for an operation that
always raises an error that the orchestrator's policy
(`base.py`'s `should_retry_error`) deems non-retryable, the operation is
invoked exactly once, that exact error is re-raised, and no delay is ever
slept. -/
theorem claim_c4_give_up_reraises_last :
    (∀ (α : Type) (policy : SlugError → Bool) (bd md : ℚ) (jitter : Nat → ℚ)
      (err : Nat → SlugError) (max_attempts : Nat), 1 ≤ max_attempts →
      ∃ k, 1 ≤ k ∧ k ≤ max_attempts ∧
        (retry_with_backoff_sync (α := α) policy bd md jitter
          (fun i => Except.error (err i)) max_attempts).result
          = Except.error (some (err k)) ∧
        (retry_with_backoff_sync (α := α) policy bd md jitter
          (fun i => Except.error (err i)) max_attempts).invocations = k)
    ∧ (∀ (α : Type) (bd md : ℚ) (jitter : Nat → ℚ) (e : SlugError)
        (max_attempts : Nat), base_should_retry_error e = false → 1 ≤ max_attempts →
      retry_with_backoff_sync (α := α) base_should_retry_error bd md jitter
        (fun _ => Except.error e) max_attempts
        = ⟨Except.error (some e), 1, []⟩) := by
  constructor
  · intro α policy bd md jitter err max_attempts hmax
    obtain ⟨k, hk1, hkm, ds, heq⟩ :=
      retryGo_all_fail (α := α) policy bd md jitter err max_attempts 1 0 [] none hmax
    rw [show 1 + k - 1 = k from by omega, show 0 + k = k from by omega] at heq
    refine ⟨k, hk1, hkm, ?_, ?_⟩
    · rw [retry_with_backoff_sync, heq]
    · rw [retry_with_backoff_sync, heq]
  · intro α bd md jitter e max_attempts hpol hmax
    obtain ⟨m, rfl⟩ : ∃ m, max_attempts = m + 1 := ⟨max_attempts - 1, by omega⟩
    simp [retry_with_backoff_sync, retryGo, hpol]

/-- Claim C4 witness: a validation error (non-retryable under `base.py`'s
policy) raised on every attempt, with `max_attempts = 3`: exactly one
invocation, the exact error re-raised. -/
theorem claim_c4_witness :
    base_should_retry_error (SlugError.validationError "bad pattern") = false
    ∧ retry_with_backoff_sync (α := Nat) base_should_retry_error 1 60 (fun _ => 1)
        (fun _ => Except.error (SlugError.validationError "bad pattern")) 3
      = ⟨Except.error (some (SlugError.validationError "bad pattern")), 1, []⟩ :=
  ⟨rfl, claim_c4_give_up_reraises_last.2 Nat 1 60 (fun _ => 1)
    (SlugError.validationError "bad pattern") 3 rfl (by norm_num)⟩

/-- Helper: if the operation fails retryably on the `k` attempts starting at
`attempt` and succeeds on attempt `attempt + k`, and at least `k + 1` loop
iterations remain, the retry loop returns the success value after exactly
`k + 1` further invocations. -/
theorem retryGo_eventually_ok {α : Type} (policy : SlugError → Bool) (bd md : ℚ)
    (jitter : Nat → ℚ) (op : Nat → Except SlugError α) (v : α) :
    ∀ (k attempt fuel calls : Nat) (delays : List ℚ) (last : Option SlugError),
    (∀ j, j < k → ∃ e, op (attempt + j) = Except.error e ∧ policy e = true) →
    op (attempt + k) = Except.ok v →
    k < fuel →
    ∃ ds, retryGo policy bd md jitter op attempt fuel calls delays last
      = ⟨Except.ok v, calls + k + 1, ds⟩ := by
  intro k
  induction k with
  | zero =>
    intro attempt fuel calls delays last _ hok hfuel
    obtain ⟨f, rfl⟩ : ∃ f, fuel = f + 1 := ⟨fuel - 1, by omega⟩
    refine ⟨delays.reverse, ?_⟩
    rw [Nat.add_zero] at hok
    simp only [retryGo, hok]
  | succ k ih =>
    intro attempt fuel calls delays last hfail hok hfuel
    obtain ⟨f, rfl⟩ : ∃ f, fuel = f + 1 := ⟨fuel - 1, by omega⟩
    obtain ⟨e, he, hpe⟩ := hfail 0 (by omega)
    rw [Nat.add_zero] at he
    have hf : k < f := by omega
    have hf0 : (f == 0) = false := by
      simp only [beq_eq_false_iff_ne, ne_eq]
      omega
    obtain ⟨ds, heq⟩ :=
      ih (attempt + 1) f (calls + 1)
        (calculate_backoff_delay attempt bd md (retryAfterOf e) (jitter attempt) :: delays)
        (some e)
        (fun j hj => by
          obtain ⟨e', he', hpe'⟩ := hfail (j + 1) (by omega)
          exact ⟨e', by rw [show attempt + 1 + j = attempt + (j + 1) from by omega]; exact he', hpe'⟩)
        (by rw [show attempt + 1 + k = attempt + (k + 1) from by omega]; exact hok)
        hf
    refine ⟨ds, ?_⟩
    simp only [retryGo, he, hpe, hf0, Bool.not_true, Bool.false_or, if_false, Bool.false_eq_true]
    rw [heq]
    congr 1
    omega

/-- Claim C5: an operation that fails exactly `k` times with retryable
errors and then succeeds, run under the orchestrator with
`max_attempts ≥ k + 1`, yields the success value after exactly `k + 1`
invocations (this covers both wrappers: `sync_wrapper` and `async_wrapper`
have identical control flow). -/
theorem claim_c5_k_failures_then_success :
    ∀ (α : Type) (policy : SlugError → Bool) (bd md : ℚ) (jitter : Nat → ℚ)
      (op : Nat → Except SlugError α) (v : α) (k max_attempts : Nat),
    (∀ i, 1 ≤ i → i ≤ k → ∃ e, op i = Except.error e ∧ policy e = true) →
    op (k + 1) = Except.ok v →
    k + 1 ≤ max_attempts →
    (retry_with_backoff_sync policy bd md jitter op max_attempts).result = Except.ok v
    ∧ (retry_with_backoff_sync policy bd md jitter op max_attempts).invocations
      = k + 1 := by
  intro α policy bd md jitter op v k max_attempts hfail hok hmax
  obtain ⟨ds, heq⟩ :=
    retryGo_eventually_ok policy bd md jitter op v k 1 max_attempts 0 [] none
      (fun j hj => hfail (1 + j) (by omega) (by omega))
      (by rw [show 1 + k = k + 1 from by omega]; exact hok)
      (by omega)
  rw [retry_with_backoff_sync, heq]
  constructor
  · rfl
  · simp

/-- Claim C5 witness: two retryable connection failures then success, with
`max_attempts = 3`: the value 42 is returned after exactly 3 invocations. -/
theorem claim_c5_witness :
    (retry_with_backoff_sync base_should_retry_error 1 60 (fun _ => 1)
      (fun i => if i ≤ 2 then Except.error (SlugError.connectionError "net down")
                else Except.ok 42) 3).result = Except.ok 42
    ∧ (retry_with_backoff_sync base_should_retry_error 1 60 (fun _ => 1)
      (fun i => if i ≤ 2 then Except.error (SlugError.connectionError "net down")
                else Except.ok 42) 3).invocations = 3 :=
  claim_c5_k_failures_then_success Nat base_should_retry_error 1 60 (fun _ => 1)
    (fun i => if i ≤ 2 then Except.error (SlugError.connectionError "net down")
              else Except.ok 42) 42 2 3
    (fun i h1 h2 => ⟨SlugError.connectionError "net down", by
      simp [show i ≤ 2 from h2], rfl⟩)
    (by norm_num)
    (by norm_num)

end SlugKit

namespace SlugKit

/-- Claim C3: the dry-run streaming scenario `limit=5, batch_size=2,
sequence=0` against `sliceTransport` yields exactly
`slice-0-0, slice-0-1, slice-2-0, slice-2-1, slice-4-0` in that order,
issuing three requests of counts 2, 2, 1 at sequences 0, 2, 4 and
terminating normally with count 5; the request body carries the `sequence`
field exactly when in dry-run mode; the cursor advances by the requested
batch size and not by the number of lines consumed (second conjunct:
against a transport returning one extra line per chunk with `limit=4,
batch_size=2`, the first chunk serves three lines but the second request is
still issued at sequence 2); and in general the chunk request issued next
asks for `min(batch_size, limit - count)` items. -/
theorem claim_c3_dry_run_streaming :
    streamRun sliceTransport true none 10 100 (some 5) 2 0 =
      ⟨["slice-0-0", "slice-0-1", "slice-2-0", "slice-2-1", "slice-4-0"],
        [⟨2, some 0, none⟩, ⟨2, some 2, none⟩, ⟨1, some 4, none⟩],
        .finished, 5⟩
    ∧ streamRun overCountTransport true none 10 100 (some 4) 2 0 =
      ⟨["over-0-0", "over-0-1", "over-0-2", "over-2-0"],
        [⟨2, some 0, none⟩, ⟨1, some 2, none⟩], .finished, 4⟩
    ∧ (∀ (dr : Bool) (ser : Option String) (c s : Int),
      (get_request dr ser c (some s)).sequence = if dr then some s else none)
    ∧ (∀ (t : Req → Except TransportExc (List String)) (dr : Bool)
        (ser : Option String) (fuel budget : Nat) (l bs count seq : Int),
      0 < min bs (l - count) →
      (streamLoop t dr ser (fuel + 1) budget (some l) bs count seq).requests.head?
        = some (get_request dr ser (min bs (l - count)) (some seq))) := by
  refine ⟨by decide, by decide, fun dr ser c s => rfl, ?_⟩
  intro t dr ser fuel budget l bs count seq hpos
  simp only [streamLoop]
  rw [if_neg (not_le.mpr hpos)]
  cases ht : t (get_request dr ser (min bs (l - count)) (some seq)) with
  | error e => simp [ht]
  | ok lines =>
    by_cases hh : (runChunk budget (some l) count lines).halted
    · simp [ht, hh]
    · simp [ht, hh]

/-- Claim C3 witness: the general chunk-request conjunct instantiated at
`limit=7, batch_size=2, count=0, sequence=0` against `sliceTransport`. -/
theorem claim_c3_witness :
    (streamLoop sliceTransport true none 4 5 (some 7) 2 0 0).requests.head?
      = some (get_request true none (min 2 (7 - 0)) (some 0)) :=
  claim_c3_dry_run_streaming.2.2.2 sliceTransport true none 3 5 7 2 0 0 (by decide)

/-- Claim C7: an unbounded stream (`limit=null`) with `batch_size=10` whose
consumer stops after taking 3 items issues exactly one request (of count
10, with no `sequence` field since this is not a dry run), delivers exactly
3 items, and is left suspended at its third `yield` — for every iteration
allowance, so a second request is never issued. -/
theorem claim_c7_early_termination :
    ∀ (fuel : Nat), 1 ≤ fuel →
    streamRun unboundedTransport false none fuel 3 none 10 0 =
      ⟨["item-0", "item-1", "item-2"], [⟨10, none, none⟩], .suspended, 2⟩ := by
  intro fuel h
  obtain ⟨f, rfl⟩ : ∃ f, fuel = f + 1 := ⟨fuel - 1, by omega⟩
  rfl

/-- Claim C7 witness: the scenario at iteration allowance 5. -/
theorem claim_c7_witness :
    streamRun unboundedTransport false none 5 3 none 10 0 =
      ⟨["item-0", "item-1", "item-2"], [⟨10, none, none⟩], .suspended, 2⟩ :=
  claim_c7_early_termination 5 (by norm_num)

/-- Claim C8: whenever the first computed batch size is zero or negative —
in particular for `limit=0` with any positive batch size — both the sync
and the async streaming generators terminate normally having yielded zero
items and issued zero requests, for every transport, mode and consumer that
starts iterating. -/
theorem claim_c8_zero_limit_no_request :
    ∀ (t : Req → Except TransportExc (List String)) (ta : Req → List String)
      (dr : Bool) (ser : Option String) (fuel budget : Nat)
      (bs seq : Int) (limit : Option Int),
    1 ≤ fuel → 1 ≤ budget →
    (match limit with | some l => min bs l | none => bs) ≤ 0 →
    streamRun t dr ser fuel budget limit bs seq = ⟨[], [], .finished, 0⟩
    ∧ asyncStreamRun ta dr ser fuel budget limit bs seq = ⟨[], [], .finished, 0⟩ := by
  intro t ta dr ser fuel budget bs seq limit hfuel hbudget hbatch
  obtain ⟨f, rfl⟩ : ∃ f, fuel = f + 1 := ⟨fuel - 1, by omega⟩
  have hb0 : ¬(budget = 0) := by omega
  constructor
  · rw [streamRun, if_neg hb0]
    cases limit with
    | none =>
      simp only [streamLoop]
      rw [if_pos hbatch]
    | some l =>
      simp only [streamLoop]
      rw [if_pos (by rw [sub_zero]; exact hbatch)]
  · rw [asyncStreamRun, if_neg hb0]
    cases limit with
    | none =>
      simp only [asyncStreamLoop, limitHit, Bool.false_eq_true, if_false]
      rw [if_pos hbatch]
    | some l =>
      by_cases hl : l ≤ (0 : Int)
      · simp only [asyncStreamLoop, limitHit]
        rw [if_pos (by simp [hl])]
      · simp only [asyncStreamLoop, limitHit]
        rw [if_neg (by simp [hl]), if_pos (by rw [sub_zero]; exact hbatch)]

/-- Claim C8 witness: `limit=0, batch_size=2`: zero items, zero requests,
for both generators. -/
theorem claim_c8_witness :
    streamRun sliceTransport true none 3 3 (some 0) 2 0 = ⟨[], [], .finished, 0⟩
    ∧ asyncStreamRun (fun _ => []) true none 3 3 (some 0) 2 0 = ⟨[], [], .finished, 0⟩ :=
  claim_c8_zero_limit_no_request sliceTransport (fun _ => []) true none 3 3 2 0 (some 0)
    (by norm_num) (by norm_num) (by decide)

end SlugKit

namespace SlugKit

/-- Claim C6, counterexample to the claim as stated: the claim maps
`500-599` to ServerError and "any other status" to ClientError, but
`handle_http_error` tests `status_code >= 500` with no upper bound, so a
(non-standard but transportable) status of 600 is classified as
ServerError, where the claim requires ClientError. -/
theorem claim_c6_counterexample :
    kindOf (handle_http_error (fun _ => none) ⟨600, "Out Of Range", "", []⟩)
      = ErrorKind.serverError
    ∧ ErrorKind.serverError ≠ ErrorKind.clientError := by
  exact ⟨rfl, by decide⟩

/-- Claim C6 (amended): for every completed non-success HTTP exchange the
classifier produces exactly one error, whose kind is determined by the
status code — 401 or 403 yield Authentication, 404 ClientError, 400
Validation, 429 RateLimit, any status of 500 **or above** ServerError, and
any other status ClientError; and when the response body is empty (up to
whitespace) or yields no message — the extracted message is `None` or the
empty string, as with a JSON body carrying `"message": null` or
`"message": ""` — the error message is `"HTTP {status}: {reason_phrase}"`.
The last conjunct spells out the JSON-null-message instance. -/
theorem claim_c6_status_classification :
    ∀ (jsonParse : String → Option JsonError) (resp : HttpResponse),
    (kindOf (handle_http_error jsonParse resp) =
      if resp.status_code = 401 ∨ resp.status_code = 403 then ErrorKind.authentication
      else if resp.status_code = 404 then ErrorKind.clientError
      else if resp.status_code = 400 then ErrorKind.validation
      else if resp.status_code = 429 then ErrorKind.rateLimit
      else if 500 ≤ resp.status_code then ErrorKind.serverError
      else ErrorKind.clientError)
    ∧ (pyStrip resp.text = "" →
      messageOf (handle_http_error jsonParse resp) =
        "HTTP " ++ toString resp.status_code ++ ": " ++ resp.reason_phrase)
    ∧ ((extract_error_info jsonParse (pyStrip resp.text)).1 = none →
      messageOf (handle_http_error jsonParse resp) =
        "HTTP " ++ toString resp.status_code ++ ": " ++ resp.reason_phrase)
    ∧ ((extract_error_info jsonParse (pyStrip resp.text)).1 = some "" →
      messageOf (handle_http_error jsonParse resp) =
        "HTTP " ++ toString resp.status_code ++ ": " ++ resp.reason_phrase)
    ∧ (∀ obj : JsonError, pyStrip resp.text ≠ "" →
      strStartsWith (pyStrip (pyStrip resp.text)) "\x7b" = true →
      jsonParse (pyStrip resp.text) = some obj →
      obj.message = some none →
      messageOf (handle_http_error jsonParse resp) =
        "HTTP " ++ toString resp.status_code ++ ": " ++ resp.reason_phrase) := by
  intro jsonParse resp
  have hmsg : messageOf (handle_http_error jsonParse resp)
      = final_error_message resp.status_code resp.reason_phrase
        (extract_error_info jsonParse (pyStrip resp.text)).1 := by
    simp only [handle_http_error]
    split_ifs <;> simp [messageOf]
  refine ⟨?_, ?_, ?_, ?_, ?_⟩
  · simp only [handle_http_error, kindOf]
    split_ifs <;> simp_all [kindOf]
  · intro h
    have hsw : strStartsWith "HTTP " "HTTP " = true := by decide
    simp only [handle_http_error, h, extract_error_info, final_error_message]
    norm_num [hsw]
    split_ifs <;> simp_all [messageOf]
  · intro h
    rw [hmsg, h]
    rfl
  · intro h
    rw [hmsg, h]
    simp [final_error_message]
  · intro obj hne hsw hjp hnull
    have hext : (extract_error_info jsonParse (pyStrip resp.text)).1 = none := by
      simp only [extract_error_info]
      rw [if_neg hne, if_pos hsw, hjp]
      simp [hnull]
    rw [hmsg, hext]
    rfl

/-- Claim C6 witness: a 503 with an all-whitespace body gets the fallback
message and ServerError kind, and a 400 whose JSON body carries
`"message": null` (so the body is non-empty but yields no message) also
gets the fallback message. -/
theorem claim_c6_witness :
    kindOf (handle_http_error (fun _ => none) ⟨503, "Service Unavailable", " ", []⟩)
      = ErrorKind.serverError
    ∧ messageOf (handle_http_error (fun _ => none) ⟨503, "Service Unavailable", " ", []⟩)
      = "HTTP 503: Service Unavailable"
    ∧ messageOf (handle_http_error (fun _ => some ⟨some none, none⟩)
        ⟨400, "Bad Request", "\x7b\"message\": null\x7d", []⟩)
      = "HTTP 400: Bad Request" := by
  refine ⟨?_, ?_, ?_⟩
  · exact (claim_c6_status_classification (fun _ => none)
      ⟨503, "Service Unavailable", " ", []⟩).1.trans (by decide)
  · exact (claim_c6_status_classification (fun _ => none)
      ⟨503, "Service Unavailable", " ", []⟩).2.1 (by decide)
  · exact (claim_c6_status_classification (fun _ => some ⟨some none, none⟩)
      ⟨400, "Bad Request", "\x7b\"message\": null\x7d", []⟩).2.2.2.2
      ⟨some none, none⟩ (by decide) (by decide) rfl rfl

/-- Claim C10: if a `KeyboardInterrupt` is raised while the synchronous
streaming generator is running, the generator's `except KeyboardInterrupt`
clause swallows it: the session ends, not with a propagated exception, but
with the normal return of the `count` accumulated so far. -/
theorem claim_c10_keyboard_interrupt_swallowed :
    ∀ (jsonParse : String → Option JsonError)
      (t : Req → Except TransportExc (List String)) (dr : Bool)
      (ser : Option String) (fuel budget : Nat) (limit : Option Int)
      (bs seq : Int),
    (streamRun t dr ser fuel budget limit bs seq).outcome
      = StreamOutcome.exc TransportExc.keyboard →
    (sync_stream_session jsonParse t dr ser fuel budget limit bs seq).2.2
      = some (Except.ok (streamRun t dr ser fuel budget limit bs seq).count) := by
  intro jsonParse t dr ser fuel budget limit bs seq h
  simp only [sync_stream_session, h]

/-- Claim C10 witness: against `kbTransport` (first chunk of 3 lines served,
`KeyboardInterrupt` during the second request) the session returns
`Except.ok 3` — the three delivered items — rather than an error. -/
theorem claim_c10_witness :
    (streamRun kbTransport true none 10 100 none 3 0).outcome
      = StreamOutcome.exc TransportExc.keyboard
    ∧ (sync_stream_session (fun _ => none) kbTransport true none 10 100 none 3 0).2.2
      = some (Except.ok 3) := by
  refine ⟨by decide, ?_⟩
  have h := claim_c10_keyboard_interrupt_swallowed (fun _ => none) kbTransport true none
    10 100 none 3 0 (by decide)
  rw [h]
  rfl

end SlugKit
